import Mathlib

/-!
Shallow embedding of the `drush` Ansible module (`drush.py`, function
`run_module`) and verification of its specified behaviour.

The module takes a request (working directory `path`, drush sub-command
`command`, optional variable `name` and `value`), builds a drush command
line, optionally runs a baseline `vget` for `variable-set`, runs (or, in
check mode, possibly skips) the command, parses the JSON output and
returns an Ansible result dictionary.

The external world (the drush binary and Python's `json.loads`) is
modelled by an `Env` record: `run` maps a command line to the triple
(exit code, stdout, stderr) that `module.run_command` returns, and
`parse` is `json.loads` returning `none` when the input is not valid
JSON (in Python this raises).  Python's result dictionary is modelled as
an association list updated by `setk`, which mirrors dictionary
assignment (overwrite an existing key, else append).
-/

namespace Drush

/-- JSON values as produced by `json.loads` (numbers restricted to the
integers that appear in this development). -/
inductive Json where
  | null : Json
  | bool : Bool → Json
  | num : Int → Json
  | str : String → Json
  | arr : List Json → Json
  | obj : List (String × Json) → Json
deriving Repr

/-- Values stored in the Ansible result dictionary: booleans (`changed`),
integers (`rc`), strings (`stderr`, `stdout`, `cmd`, `original_value`)
and decoded JSON payloads. -/
inductive RVal where
  | b : Bool → RVal
  | i : Int → RVal
  | s : String → RVal
  | j : Json → RVal
deriving Repr

/-- The Ansible result dictionary, as an association list. -/
abbrev Dict := List (String × RVal)

/-- Python dictionary assignment `d[k] = v`: overwrite the value of an
existing key, otherwise append the new binding. -/
def setk (d : Dict) (k : String) (v : RVal) : Dict :=
  if d.any (fun p => p.1 = k) then
    d.map (fun p => if p.1 = k then (k, v) else p)
  else
    d ++ [(k, v)]

/-- Result of spawning one external command: exit code, stdout, stderr. -/
structure RunResult where
  rc : Int
  out : String
  err : String
deriving DecidableEq, Repr

/-- The request parameters of one module invocation (`module.params`).
Defaults for `name` and `value` are the empty string, as declared in
`module_args`. -/
structure Request where
  path : String
  command : String
  name : String := ""
  value : String := ""

/-- The environment: location of the drush binary (`module.get_bin_path`),
the behaviour of spawned commands (`module.run_command`, always invoked
with `cwd = path`), and JSON decoding (`json.loads`; `none` models a
raised `ValueError`). -/
structure Env where
  drushPath : String
  run : String → RunResult
  parse : String → Option Json

/-- How one invocation of `run_module` terminates: `exited` models
`module.exit_json(**result)`, `failed` models `module.fail_json(msg=..)`
with the keyword arguments passed along, and `crashed` models an
uncaught Python exception. -/
inductive ModuleResult where
  | exited : Dict → ModuleResult
  | failed : String → Dict → ModuleResult
  | crashed : String → ModuleResult
deriving Repr

/-- A single-quote character, avoiding a literal quote in the source. -/
def squote : String := String.singleton (Char.ofNat 39)

/-- A double-quote character. -/
def dquote : String := String.singleton (Char.ofNat 34)

/-- A backslash character. -/
def bslash : String := String.singleton (Char.ofNat 92)

/-- Hexadecimal digit for `json.dumps` unicode escapes. -/
def hexDigit (n : Nat) : Char :=
  if n < 10 then Char.ofNat (48 + n) else Char.ofNat (87 + n)

/-- A four-digit `\uXXXX` escape as produced by `json.dumps`. -/
def uEscape (n : Nat) : String :=
  bslash ++ "u" ++ String.mk [hexDigit (n / 4096 % 16), hexDigit (n / 256 % 16),
    hexDigit (n / 16 % 16), hexDigit (n % 16)]

/-- Escape of one character inside a JSON string literal, following
`json.dumps` with its default `ensure_ascii=True`. -/
def escChar (c : Char) : String :=
  if c = Char.ofNat 34 then bslash ++ dquote
  else if c = Char.ofNat 92 then bslash ++ bslash
  else if c = Char.ofNat 10 then bslash ++ "n"
  else if c = Char.ofNat 13 then bslash ++ "r"
  else if c = Char.ofNat 9 then bslash ++ "t"
  else if c = Char.ofNat 8 then bslash ++ "b"
  else if c = Char.ofNat 12 then bslash ++ "f"
  else if c.toNat < 32 then uEscape c.toNat
  else if c.toNat < 127 then String.singleton c
  else if c.toNat < 65536 then uEscape c.toNat
  else
    uEscape (55296 + (c.toNat - 65536) / 1024) ++ uEscape (56320 + (c.toNat - 65536) % 1024)

/-- `json.dumps` applied to a Python string: the double-quoted, escaped
JSON string literal. -/
def jsonDumpsStr (s : String) : String :=
  dquote ++ String.join (s.toList.map escChar) ++ dquote

/-- Python's `str.rstrip()`: remove trailing whitespace. -/
def rstrip (s : String) : String :=
  String.mk (s.toList.reverse.dropWhile Char.isWhitespace).reverse

/-- Python's `v != value` where `v` came from `json.loads` and `value`
is a string: values of different Python types are never equal, so the
comparison is `True` unless `v` is a string equal to `value`. -/
def jsonNeStr (v : Json) (s : String) : Bool :=
  match v with
  | .str t => t != s
  | _ => true

/-- The commands that reject `--format=json` (`hates_format` in the
source). -/
def hatesFormat : List String := ["updb", "updatedb", "cc", "cache-clear"]

/-- The read-only commands that are safe to run in check mode
(`safe_commands` in the source). -/
def safeCommands : List String :=
  ["config-get", "core-requirements", "core-status", "drupal-directory",
   "pm-info", "pm-list", "pm-projectinfo", "search-status", "state-get",
   "status", "user-information", "variable-get", "watchdog-list",
   "watchdog-show"]

/-- The baseline command capturing a variable's current value before a
real `variable-set` (source line 131):
`"%s vget --format=string --exact %s" % (drush, name)`. -/
def baselineCmd (drush name : String) : String :=
  drush ++ " vget --format=string --exact " ++ name

/-- The main drush command line (source lines 143-160).  `cmd_extra`
accumulates the variable name, the `--exact` flag for variable
operations, and the value (JSON-encoded in single quotes for
`variable-set`, bare otherwise); the final line is
`"%s %s --nocolor -y %s%s" % (drush, command, format, cmd_extra)`. -/
def buildCmd (drush command name value : String) : String :=
  let cmd_extra : String := ""
  let cmd_extra := if name ≠ "" then cmd_extra ++ " " ++ name else cmd_extra
  let cmd_extra :=
    if command = "variable-get" ∨ command = "variable-set" then cmd_extra ++ " --exact"
    else cmd_extra
  let cmd_extra :=
    if command = "variable-set" then
      cmd_extra ++ " " ++ squote ++ jsonDumpsStr value ++ squote
    else if value ≠ "" then cmd_extra ++ " " ++ value
    else cmd_extra
  let format := if command ∈ hatesFormat then "" else "--format=json"
  drush ++ " " ++ command ++ " --nocolor -y " ++ format ++ cmd_extra

/-- Change determination and termination (source lines 186-208): for a
command outside the safe list set `changed` (comparing the baseline to
the requested value for `variable-set`, unconditionally `True`
otherwise), then fail with the captured stderr when the exit code is
nonzero, else exit normally.  Reading an unbound `original_value` would
raise in Python, modelled by `crashed`. -/
def changeAndExit (req : Request) (command : String) (trace : List String)
    (r : RunResult) (origVal : Option String) (result : Dict) :
    List String × ModuleResult :=
  let step : Option Dict :=
    if command ∉ safeCommands then
      if command = "variable-set" then
        match origVal with
        | some ov => some (setk result "changed" (RVal.b (ov != req.value)))
        | none => none
      else some (setk result "changed" (RVal.b true))
    else some result
  match step with
  | none => (trace, ModuleResult.crashed "UnboundLocalError: original_value")
  | some result =>
    if r.rc ≠ 0 then (trace, ModuleResult.failed r.err result)
    else (trace, ModuleResult.exited result)

/-- The tail of `run_module` after parameter checking, check-mode
substitution and baseline capture (source lines 140-208): build the
command line, run it unless check mode forbids it, decode the output and
interpret the result.  `rcLoc`/`errLoc` carry the Python locals `rc` and
`err` (`none` when unassigned); the final `if rc != 0` of the source
raises `UnboundLocalError` when `rc` was never assigned, modelled by
`crashed`. -/
def finishRun (env : Env) (check_mode : Bool) (req : Request) (command : String)
    (trace : List String) (rcLoc : Option Int) (errLoc : Option String)
    (origVal : Option String) (result : Dict) : List String × ModuleResult :=
  let cmd := buildCmd env.drushPath command req.name req.value
  let result := setk result "cmd" (RVal.s cmd)
  if ¬ check_mode ∨ command ∈ safeCommands then
    let r := env.run cmd
    let trace := trace ++ [cmd]
    let result := setk (setk (setk result "rc" (RVal.i r.rc))
      "stderr" (RVal.s r.err)) "stdout" (RVal.s r.out)
    if r.rc = 0 then
      match (if r.out = "" then some (Json.arr []) else env.parse r.out) with
      | none => (trace, ModuleResult.crashed "ValueError: json.loads")
      | some v =>
        let result :=
          if command = "variable-get" then
            let result := setk result req.name (RVal.j v)
            if check_mode ∧ req.command = "variable-set" then
              setk result "changed" (RVal.b (jsonNeStr v req.value))
            else result
          else if r.out ≠ "" then setk result "drush" (RVal.j v)
          else result
        changeAndExit req command trace r origVal result
    else
      changeAndExit req command trace r origVal result
  else
    match rcLoc with
    | none => (trace, ModuleResult.crashed "UnboundLocalError: rc")
    | some rc =>
      if rc ≠ 0 then (trace, ModuleResult.failed (errLoc.getD "") result)
      else (trace, ModuleResult.exited result)

/-- The full `run_module`: seed the result dictionary, check required
parameters for `variable-get`/`variable-set`, substitute `variable-set`
by `variable-get` in check mode or capture the baseline value otherwise,
then hand over to `finishRun`.  The first component of the returned pair
is the list of command lines actually spawned, in order. -/
def run_module (env : Env) (check_mode : Bool) (req : Request) :
    List String × ModuleResult :=
  let drush := env.drushPath
  let result : Dict :=
    [("changed", RVal.b false), ("rc", RVal.i 0),
     ("stderr", RVal.s ""), ("stdout", RVal.s "")]
  if req.command = "variable-get" ∧ req.name = "" then
    ([], ModuleResult.failed "Variable name required" [])
  else if req.command = "variable-set" ∧ req.name = "" then
    ([], ModuleResult.failed "Variable name required" [])
  else if req.command = "variable-set" ∧ req.value = "" then
    ([], ModuleResult.failed "Variable value required" [])
  else if req.command = "variable-set" then
    if check_mode then
      finishRun env check_mode req "variable-get" [] none none none result
    else
      let bcmd := baselineCmd drush req.name
      let r := env.run bcmd
      let original_value := if r.rc = 0 then rstrip r.out else ""
      finishRun env check_mode req req.command [bcmd] (some r.rc) (some r.err)
        (some original_value) (setk result "original_value" (RVal.s original_value))
  else
    finishRun env check_mode req req.command [] none none none result

/-- The result dictionary carried by a module outcome (empty for a
crash). -/
def resultOf : ModuleResult → Dict
  | .exited d => d
  | .failed _ d => d
  | .crashed _ => []

/-- Whether the module invocation ended in `fail_json`. -/
def isFailed : ModuleResult → Bool
  | .failed _ _ => true
  | _ => false

/-- Whether the module invocation ended in `exit_json`. -/
def isExited : ModuleResult → Bool
  | .exited _ => true
  | _ => false

/-- Whether the module invocation died with an uncaught exception. -/
def isCrashed : ModuleResult → Bool
  | .crashed _ => true
  | _ => false

/-- Python dictionary lookup `d[k]` on the association-list model. -/
def getk (d : Dict) (k : String) : Option RVal :=
  match d with
  | [] => none
  | (k2, v) :: t => if k = k2 then some v else getk t k

theorem getk_map_overwrite (k : String) (v : RVal) :
    ∀ d : Dict, d.any (fun p => p.1 = k) = true →
      getk (d.map fun p => if p.1 = k then (k, v) else p) k = some v := by
  intro d
  induction d with
  | nil => intro h; simp at h
  | cons p t ih =>
    intro h
    obtain ⟨pk, pv⟩ := p
    by_cases hp : pk = k
    · subst hp
      rw [List.map_cons, if_pos rfl, getk, if_pos rfl]
    · simp only [List.map_cons] at *
      rw [if_neg hp]
      rw [getk, if_neg (fun hkp => hp hkp.symm)]
      apply ih
      simp only [List.any_cons, Bool.or_eq_true, decide_eq_true_eq] at h
      rcases h with h | h
      · exact absurd h hp
      · exact h

theorem getk_append_new (k : String) (v : RVal) :
    ∀ d : Dict, d.any (fun p => p.1 = k) = false →
      getk (d ++ [(k, v)]) k = some v := by
  intro d
  induction d with
  | nil => intro _; simp [getk]
  | cons p t ih =>
    intro h
    obtain ⟨pk, pv⟩ := p
    simp only [List.any_cons, Bool.or_eq_false_iff, decide_eq_false_iff_not] at h
    rw [List.cons_append, getk, if_neg (fun hkp => h.1 hkp.symm)]
    exact ih (by simpa using h.2)

/-- After `d[k] = v`, looking up `k` yields `v`. -/
theorem getk_setk (d : Dict) (k : String) (v : RVal) :
    getk (setk d k v) k = some v := by
  unfold setk
  by_cases h : d.any (fun p => p.1 = k) = true
  · rw [if_pos h]; exact getk_map_overwrite k v d h
  · rw [if_neg h]
    exact getk_append_new k v d (Bool.eq_false_iff.mpr h)

theorem getk_map_overwrite_ne (k k2 : String) (v : RVal) (hne : k2 ≠ k) :
    ∀ d : Dict,
      getk (d.map fun p => if p.1 = k then (k, v) else p) k2 = getk d k2 := by
  intro d
  induction d with
  | nil => simp
  | cons p t ih =>
    obtain ⟨pk, pv⟩ := p
    by_cases hp : pk = k
    · simp only [List.map_cons, if_pos hp]
      rw [getk, getk, if_neg (hp ▸ hne), if_neg (fun h => hne (h.trans hp))]
      exact ih
    · simp only [List.map_cons, if_neg hp]
      rw [getk, getk]
      by_cases hk2 : k2 = pk
      · rw [if_pos hk2, if_pos hk2]
      · rw [if_neg hk2, if_neg hk2]; exact ih

theorem getk_append_ne (k k2 : String) (v : RVal) (hne : k2 ≠ k) :
    ∀ d : Dict, getk (d ++ [(k, v)]) k2 = getk d k2 := by
  intro d
  induction d with
  | nil => simp [getk, hne]
  | cons p t ih =>
    obtain ⟨pk, pv⟩ := p
    rw [List.cons_append, getk, getk]
    by_cases hk2 : k2 = pk
    · rw [if_pos hk2, if_pos hk2]
    · rw [if_neg hk2, if_neg hk2]; exact ih

/-- After `d[k] = v`, looking up a different key `k2` is unchanged. -/
theorem getk_setk_ne (d : Dict) (k k2 : String) (v : RVal) (hne : k2 ≠ k) :
    getk (setk d k v) k2 = getk d k2 := by
  unfold setk
  by_cases h : d.any (fun p => p.1 = k) = true
  · rw [if_pos h]; exact getk_map_overwrite_ne k k2 v hne d
  · rw [if_neg h]; exact getk_append_ne k k2 v hne d

/-! Concrete environments and requests used by witnesses and
counterexamples. -/

/-- A tool that always exits 0 with stdout `0`, decoded as the number 0. -/
def envNum : Env :=
  ⟨"drush", fun _ => ⟨0, "0", ""⟩,
   fun s => if s = "0" then some (Json.num 0) else none⟩

/-- A tool that always exits 1 with stderr `boom`. -/
def envFail : Env := ⟨"drush", fun _ => ⟨1, "", "boom"⟩, fun _ => none⟩

/-- A tool that always exits 0 with stdout `true`, decoded as the JSON
boolean. -/
def envTruthy : Env :=
  ⟨"drush", fun _ => ⟨0, "true", ""⟩,
   fun s => if s = "true" then some (Json.bool true) else none⟩

/-- A tool whose baseline `vget` for `age` answers `1800` (with a
trailing newline) and whose other commands exit 0 silently. -/
def envBase : Env :=
  ⟨"drush",
   fun c => if c = baselineCmd "drush" "age" then ⟨0, "1800\n", ""⟩ else ⟨0, "", ""⟩,
   fun _ => none⟩

/-- A tool whose baseline `vget` for `age` exits 1 (variable never set)
and whose other commands exit 0 silently. -/
def envBaseFail : Env :=
  ⟨"drush",
   fun c => if c = baselineCmd "drush" "age" then ⟨1, "", "no such variable"⟩
     else ⟨0, "", ""⟩,
   fun _ => none⟩

/-- A tool whose baseline `vget` for `age` answers `1800` but whose
other commands exit 2 with stderr `fatal`. -/
def envMainFail : Env :=
  ⟨"drush",
   fun c => if c = baselineCmd "drush" "age" then ⟨0, "1800\n", ""⟩
     else ⟨2, "", "fatal"⟩,
   fun _ => none⟩

/-- A `variable-set` request. -/
def reqSet : Request := { path := "/", command := "variable-set", name := "age", value := "3600" }

/-- A `variable-get` request. -/
def reqGet : Request := { path := "/", command := "variable-get", name := "cron" }

/-- A mutating request outside the safe list. -/
def reqCC : Request := { path := "/var/www", command := "cache-clear" }

/-! The claims. -/

/-- C1: the claim says that in check mode a command outside the
read-only allow-list (and not `variable-set`) spawns no process and
returns `changed = false`, `rc = 0`.  No process is indeed spawned, but
instead of returning, the module dies: the Python local `rc` is only
assigned inside the two skipped `run_command` branches, so the final
`if rc != 0` raises `UnboundLocalError`.  Evaluated here at the failing
input `command = cache-clear` in check mode. -/
theorem check_skip_unsafe_crashes :
    run_module envNum true reqCC = ([], ModuleResult.crashed "UnboundLocalError: rc") :=
  rfl

/-- C4: a `variable-get` with empty name, or a `variable-set` with
empty name or empty value, fails with a missing-parameter message
before any process is spawned. -/
theorem missing_parameter_fails_early (env : Env) (check_mode : Bool) (req : Request)
    (h : (req.command = "variable-get" ∧ req.name = "") ∨
         (req.command = "variable-set" ∧ (req.name = "" ∨ req.value = ""))) :
    (run_module env check_mode req).1 = [] ∧
    ∃ msg, (run_module env check_mode req).2 = ModuleResult.failed msg [] ∧
      (msg = "Variable name required" ∨ msg = "Variable value required") := by
  rcases h with ⟨hc, hn⟩ | ⟨hc, hnv⟩
  · refine ⟨?_, "Variable name required", ?_, Or.inl rfl⟩ <;>
      simp [run_module, hc, hn]
  · by_cases hn : req.name = ""
    · refine ⟨?_, "Variable name required", ?_, Or.inl rfl⟩ <;>
        simp [run_module, hc, hn]
    · have hv : req.value = "" := hnv.resolve_left hn
      refine ⟨?_, "Variable value required", ?_, Or.inr rfl⟩ <;>
        simp [run_module, hc, hn, hv]

theorem missing_parameter_fails_early_witness :
    (run_module envNum true { path := "/", command := "variable-get" }).1 = [] ∧
    ∃ msg, (run_module envNum true { path := "/", command := "variable-get" }).2 =
        ModuleResult.failed msg [] ∧
      (msg = "Variable name required" ∨ msg = "Variable value required") :=
  missing_parameter_fails_early envNum true _ (Or.inl ⟨rfl, rfl⟩)

/-- C2: in check mode a `variable-set` request executes only the
substituted `variable-get` command, and when that get exits 0 the
reported `changed` equals the Python inequality between the decoded
payload and the requested value. -/
theorem simulate_set_substitutes_get (env : Env) (req : Request)
    (out err : String) (v : Json)
    (hc : req.command = "variable-set") (hn : req.name ≠ "") (hv : req.value ≠ "")
    (hrun : env.run (buildCmd env.drushPath "variable-get" req.name req.value) =
      RunResult.mk 0 out err)
    (hp : (out = "" ∧ v = Json.arr []) ∨ (out ≠ "" ∧ env.parse out = some v)) :
    (run_module env true req).1 =
      [buildCmd env.drushPath "variable-get" req.name req.value] ∧
    isExited (run_module env true req).2 = true ∧
    getk (resultOf (run_module env true req).2) "changed" =
      some (RVal.b (jsonNeStr v req.value)) := by
  have hsafe : ("variable-get" : String) ∈ safeCommands := by decide
  rcases hp with ⟨ho, hvv⟩ | ⟨ho, hpp⟩
  · subst hvv
    refine ⟨?_, ?_, ?_⟩ <;>
      simp [run_module, finishRun, changeAndExit, hc, hn, hv, hrun, hsafe, ho,
        isExited, resultOf, getk_setk]
  · refine ⟨?_, ?_, ?_⟩ <;>
      simp [run_module, finishRun, changeAndExit, hc, hn, hv, hrun, hsafe, ho,
        hpp, isExited, resultOf, getk_setk]

theorem simulate_set_substitutes_get_witness :
    (run_module envNum true reqSet).1 =
      [buildCmd "drush" "variable-get" "age" "3600"] ∧
    isExited (run_module envNum true reqSet).2 = true ∧
    getk (resultOf (run_module envNum true reqSet).2) "changed" =
      some (RVal.b (jsonNeStr (Json.num 0) "3600")) :=
  simulate_set_substitutes_get envNum reqSet "0" "" (Json.num 0) rfl
    (by decide) (by decide) rfl (Or.inr ⟨by decide, rfl⟩)

/-- Shared scenario: a real (non-check) `variable-set` spawns the
baseline `vget` and then the set command, records `original_value`
(trimmed stdout on baseline exit 0, empty string otherwise) and
`changed = (original_value != value)`, and terminates by `exit_json`
when the set exits 0 and by `fail_json` otherwise. -/
theorem real_set_scenario (env : Env) (req : Request) (brc mrc : Int)
    (bout berr out err : String) (v : Json)
    (hc : req.command = "variable-set") (hn : req.name ≠ "") (hv : req.value ≠ "")
    (hb : env.run (baselineCmd env.drushPath req.name) = RunResult.mk brc bout berr)
    (hm : env.run (buildCmd env.drushPath "variable-set" req.name req.value) =
      RunResult.mk mrc out err)
    (hp : mrc = 0 → (out = "" ∨ env.parse out = some v)) :
    (run_module env false req).1 =
      [baselineCmd env.drushPath req.name,
       buildCmd env.drushPath "variable-set" req.name req.value] ∧
    getk (resultOf (run_module env false req).2) "original_value" =
      some (RVal.s (if brc = 0 then rstrip bout else "")) ∧
    getk (resultOf (run_module env false req).2) "changed" =
      some (RVal.b ((if brc = 0 then rstrip bout else "") != req.value)) ∧
    (mrc = 0 → isExited (run_module env false req).2 = true) ∧
    (mrc ≠ 0 → isFailed (run_module env false req).2 = true) := by
  have hunsafe : ("variable-set" : String) ∉ safeCommands := by decide
  by_cases hmrc : mrc = 0
  · subst hmrc
    by_cases ho : out = ""
    · refine ⟨?_, ?_, ?_, fun _ => ?_, fun h0 => absurd rfl h0⟩ <;>
        simp [run_module, finishRun, changeAndExit, hc, hn, hv, hb, hm, ho,
          hunsafe, isExited, resultOf, getk_setk, getk_setk_ne]
    · have hpp : env.parse out = some v := (hp rfl).resolve_left ho
      refine ⟨?_, ?_, ?_, fun _ => ?_, fun h0 => absurd rfl h0⟩ <;>
        simp [run_module, finishRun, changeAndExit, hc, hn, hv, hb, hm, ho, hpp,
          hunsafe, isExited, resultOf, getk_setk, getk_setk_ne]
  · refine ⟨?_, ?_, ?_, fun h0 => absurd h0 hmrc, fun _ => ?_⟩ <;>
      simp [run_module, finishRun, changeAndExit, hc, hn, hv, hb, hm, hmrc,
        hunsafe, isFailed, resultOf, getk_setk, getk_setk_ne]

/-- C3: for a real (non-simulate) `variable-set`, the baseline get runs
before the set; exit 0 yields `original_value` = trimmed stdout and a
nonzero exit yields the empty string, and when the set exits 0 the
outcome reports `changed = (original_value != value)`. -/
theorem real_set_baseline_and_changed (env : Env) (req : Request) (brc : Int)
    (bout berr out err : String) (v : Json)
    (hc : req.command = "variable-set") (hn : req.name ≠ "") (hv : req.value ≠ "")
    (hb : env.run (baselineCmd env.drushPath req.name) = RunResult.mk brc bout berr)
    (hm : env.run (buildCmd env.drushPath "variable-set" req.name req.value) =
      RunResult.mk 0 out err)
    (hp : out = "" ∨ env.parse out = some v) :
    (run_module env false req).1 =
      [baselineCmd env.drushPath req.name,
       buildCmd env.drushPath "variable-set" req.name req.value] ∧
    isExited (run_module env false req).2 = true ∧
    getk (resultOf (run_module env false req).2) "original_value" =
      some (RVal.s (if brc = 0 then rstrip bout else "")) ∧
    getk (resultOf (run_module env false req).2) "changed" =
      some (RVal.b ((if brc = 0 then rstrip bout else "") != req.value)) := by
  obtain ⟨h1, h2, h3, h4, -⟩ :=
    real_set_scenario env req brc 0 bout berr out err v hc hn hv hb hm (fun _ => hp)
  exact ⟨h1, h4 rfl, h2, h3⟩

theorem real_set_baseline_and_changed_witness :
    (run_module envBase false reqSet).1 =
      [baselineCmd "drush" "age",
       buildCmd "drush" "variable-set" "age" "3600"] ∧
    isExited (run_module envBase false reqSet).2 = true ∧
    getk (resultOf (run_module envBase false reqSet).2) "original_value" =
      some (RVal.s "1800") ∧
    getk (resultOf (run_module envBase false reqSet).2) "changed" =
      some (RVal.b true) :=
  real_set_baseline_and_changed envBase reqSet 0 "1800\n" "" "" "" Json.null
    rfl (by decide) (by decide) rfl rfl (Or.inl rfl)

/-- C5, counterexample: in check mode a `variable-set` request is the
one case in which the pre-existing-value read is the substituted main
command, and its nonzero exit is NOT ignored: the invocation ends in
`fail_json`.  (The tolerated baseline read exists only in non-check
mode.) -/
theorem simulate_get_failure_is_fatal :
    isFailed (run_module envFail true reqSet).2 = true ∧
    (run_module envFail true reqSet).1 =
      [buildCmd "drush" "variable-get" "age" "3600"] :=
  ⟨rfl, rfl⟩

/-- C5, amended: for a real (non-simulate) `variable-set`, a nonzero
exit of the pre-existing-value read is ignored and treated as no prior
value (`original_value = ""`), not as an error: the set command still
runs and the invocation still exits normally when it succeeds. -/
theorem real_set_tolerates_baseline_failure (env : Env) (req : Request) (brc : Int)
    (bout berr out err : String) (v : Json)
    (hc : req.command = "variable-set") (hn : req.name ≠ "") (hv : req.value ≠ "")
    (hb : env.run (baselineCmd env.drushPath req.name) = RunResult.mk brc bout berr)
    (hbrc : brc ≠ 0)
    (hm : env.run (buildCmd env.drushPath "variable-set" req.name req.value) =
      RunResult.mk 0 out err)
    (hp : out = "" ∨ env.parse out = some v) :
    (run_module env false req).1 =
      [baselineCmd env.drushPath req.name,
       buildCmd env.drushPath "variable-set" req.name req.value] ∧
    isExited (run_module env false req).2 = true ∧
    getk (resultOf (run_module env false req).2) "original_value" =
      some (RVal.s "") := by
  obtain ⟨h1, h2, -, h4, -⟩ :=
    real_set_scenario env req brc 0 bout berr out err v hc hn hv hb hm (fun _ => hp)
  rw [if_neg hbrc] at h2
  exact ⟨h1, h4 rfl, h2⟩

theorem real_set_tolerates_baseline_failure_witness :
    (run_module envBaseFail false reqSet).1 =
      [baselineCmd "drush" "age",
       buildCmd "drush" "variable-set" "age" "3600"] ∧
    isExited (run_module envBaseFail false reqSet).2 = true ∧
    getk (resultOf (run_module envBaseFail false reqSet).2) "original_value" =
      some (RVal.s "") :=
  real_set_tolerates_baseline_failure envBaseFail reqSet 1 "" "no such variable"
    "" "" Json.null rfl (by decide) (by decide) rfl (by decide) rfl (Or.inl rfl)

/-- C6, counterexample: in check mode a successful `variable-set`
dry-run returns a result without any `original_value` key at all — the
pre-existing value is only captured in non-simulate mode. -/
theorem simulate_set_has_no_original_value :
    getk (resultOf (run_module envNum true reqSet).2) "original_value" = none ∧
    isExited (run_module envNum true reqSet).2 = true :=
  ⟨rfl, rfl⟩

/-- C6, amended: for a `variable-set` executed in non-simulate mode,
the outcome's `original_value` field captures the pre-existing value of
the named variable (trimmed stdout of the baseline get, or the empty
string when that get fails). -/
theorem real_set_captures_original_value (env : Env) (req : Request) (brc : Int)
    (bout berr out err : String) (v : Json)
    (hc : req.command = "variable-set") (hn : req.name ≠ "") (hv : req.value ≠ "")
    (hb : env.run (baselineCmd env.drushPath req.name) = RunResult.mk brc bout berr)
    (hm : env.run (buildCmd env.drushPath "variable-set" req.name req.value) =
      RunResult.mk 0 out err)
    (hp : out = "" ∨ env.parse out = some v) :
    isExited (run_module env false req).2 = true ∧
    getk (resultOf (run_module env false req).2) "original_value" =
      some (RVal.s (if brc = 0 then rstrip bout else "")) := by
  obtain ⟨-, h2, -, h4, -⟩ :=
    real_set_scenario env req brc 0 bout berr out err v hc hn hv hb hm (fun _ => hp)
  exact ⟨h4 rfl, h2⟩

theorem real_set_captures_original_value_witness :
    isExited (run_module envBase false reqSet).2 = true ∧
    getk (resultOf (run_module envBase false reqSet).2) "original_value" =
      some (RVal.s "1800") :=
  real_set_captures_original_value envBase reqSet 0 "1800\n" "" "" "" Json.null
    rfl (by decide) (by decide) rfl rfl (Or.inl rfl)

/-- C10: when the real set command exits nonzero, the invocation ends
in `fail_json` and the failure payload still carries `original_value`
(the captured baseline) and `changed = (original_value != value)`,
computed before the failure is surfaced. -/
theorem real_set_failure_payload (env : Env) (req : Request) (brc mrc : Int)
    (bout berr out err : String)
    (hc : req.command = "variable-set") (hn : req.name ≠ "") (hv : req.value ≠ "")
    (hb : env.run (baselineCmd env.drushPath req.name) = RunResult.mk brc bout berr)
    (hm : env.run (buildCmd env.drushPath "variable-set" req.name req.value) =
      RunResult.mk mrc out err)
    (hmrc : mrc ≠ 0) :
    isFailed (run_module env false req).2 = true ∧
    getk (resultOf (run_module env false req).2) "original_value" =
      some (RVal.s (if brc = 0 then rstrip bout else "")) ∧
    getk (resultOf (run_module env false req).2) "changed" =
      some (RVal.b ((if brc = 0 then rstrip bout else "") != req.value)) := by
  obtain ⟨-, h2, h3, -, h5⟩ :=
    real_set_scenario env req brc mrc bout berr out err Json.null hc hn hv hb hm
      (fun h => absurd h hmrc)
  exact ⟨h5 hmrc, h2, h3⟩

theorem real_set_failure_payload_witness :
    isFailed (run_module envMainFail false reqSet).2 = true ∧
    getk (resultOf (run_module envMainFail false reqSet).2) "original_value" =
      some (RVal.s "1800") ∧
    getk (resultOf (run_module envMainFail false reqSet).2) "changed" =
      some (RVal.b true) :=
  real_set_failure_payload envMainFail reqSet 0 2 "1800\n" "" "" "fatal"
    rfl (by decide) (by decide) rfl rfl (by decide)

/-- Modelled from the claim's wording for C7: base tool invocation plus
sub-command name, then the machine-readable output flag (omitted for
the exclusion set), then the non-interactive/no-color flags, then the
variable name when present, then the exact-match flag for get/set
operations, then the value. -/
def claimedCmd (drush command name value : String) : String :=
  drush ++ " " ++ command ++ " " ++
    (if command ∈ hatesFormat then "" else "--format=json") ++
    " --nocolor -y" ++
    (if name ≠ "" then " " ++ name else "") ++
    (if command = "variable-get" ∨ command = "variable-set" then " --exact" else "") ++
    (if command = "variable-set" then " " ++ squote ++ jsonDumpsStr value ++ squote
     else if value ≠ "" then " " ++ value else "")

/-- Modelled from the amended wording for C7: identical to the claim's
order except that the non-interactive/no-color flags come before the
machine-readable output flag, as the source's format string
`"%s %s --nocolor -y %s%s"` dictates. -/
def amendedCmd (drush command name value : String) : String :=
  drush ++ " " ++ command ++ " --nocolor -y " ++
    (if command ∈ hatesFormat then "" else "--format=json") ++
    (if name ≠ "" then " " ++ name else "") ++
    (if command = "variable-get" ∨ command = "variable-set" then " --exact" else "") ++
    (if command = "variable-set" then " " ++ squote ++ jsonDumpsStr value ++ squote
     else if value ≠ "" then " " ++ value else "")

/-- C7, counterexample: the built command line puts `--nocolor -y`
before the machine-readable output flag, not after it as the claim
orders the parts. -/
theorem cmd_order_counterexample :
    buildCmd "drush" "core-status" "" "" ≠ claimedCmd "drush" "core-status" "" "" ∧
    buildCmd "drush" "core-status" "" "" =
      "drush core-status --nocolor -y --format=json" ∧
    claimedCmd "drush" "core-status" "" "" =
      "drush core-status --format=json --nocolor -y" :=
  ⟨by decide, rfl, rfl⟩

/-- C7, amended: the built command line places its parts in the fixed
order base invocation + sub-command, non-interactive/no-color flags,
machine-readable output flag (omitted exactly on the exclusion set),
variable name when present, exact-match flag for get/set operations,
then the value (JSON-string-encoded in single quotes for a set, bare
otherwise when supplied). -/
theorem cmd_order_amended (drush command name value : String) :
    buildCmd drush command name value = amendedCmd drush command name value := by
  unfold buildCmd amendedCmd
  split_ifs <;>
    simp only [← String.append_assoc, String.append_empty, String.empty_append]

/-- C8, counterexample: for a get of the variable literally named
`changed`, the decoded payload is stored under the key `changed` and
overwrites the changed flag, so `changed` does not remain false. -/
theorem get_payload_key_collision :
    getk (resultOf (run_module envTruthy false
      { path := "/", command := "variable-get", name := "changed" }).2) "changed" =
      some (RVal.j (Json.bool true)) ∧
    isExited (run_module envTruthy false
      { path := "/", command := "variable-get", name := "changed" }).2 = true :=
  ⟨rfl, rfl⟩

/-- C8, amended: for a `variable-get` whose tool exits 0, the decoded
payload is stored under a key equal to the requested name (not under
the generic `drush` key), and `changed` remains false provided the
requested name is not itself the string `changed`. -/
theorem get_payload_keyed_by_name (env : Env) (check_mode : Bool) (req : Request)
    (out err : String) (v : Json)
    (hc : req.command = "variable-get") (hn : req.name ≠ "")
    (hnc : req.name ≠ "changed")
    (hrun : env.run (buildCmd env.drushPath "variable-get" req.name req.value) =
      RunResult.mk 0 out err)
    (hp : (out = "" ∧ v = Json.arr []) ∨ (out ≠ "" ∧ env.parse out = some v)) :
    isExited (run_module env check_mode req).2 = true ∧
    getk (resultOf (run_module env check_mode req).2) req.name = some (RVal.j v) ∧
    getk (resultOf (run_module env check_mode req).2) "changed" =
      some (RVal.b false) := by
  have hsafe : ("variable-get" : String) ∈ safeCommands := by decide
  have hnc2 : ("changed" : String) ≠ req.name := fun h => hnc h.symm
  rcases hp with ⟨ho, hvv⟩ | ⟨ho, hpp⟩
  · subst hvv
    refine ⟨?_, ?_, ?_⟩ <;>
      simp [run_module, finishRun, changeAndExit, hc, hn, hrun, hsafe, ho,
        hnc2, isExited, resultOf, getk_setk, getk_setk_ne, getk]
  · refine ⟨?_, ?_, ?_⟩ <;>
      simp [run_module, finishRun, changeAndExit, hc, hn, hrun, hsafe, ho, hpp,
        hnc2, isExited, resultOf, getk_setk, getk_setk_ne, getk]

theorem get_payload_keyed_by_name_witness :
    isExited (run_module envNum false reqGet).2 = true ∧
    getk (resultOf (run_module envNum false reqGet).2) "cron" =
      some (RVal.j (Json.num 0)) ∧
    getk (resultOf (run_module envNum false reqGet).2) "changed" =
      some (RVal.b false) :=
  get_payload_keyed_by_name envNum false reqGet "0" "" (Json.num 0)
    rfl (by decide) (by decide) rfl (Or.inr ⟨by decide, rfl⟩)

/-- A `core-status` request (allow-listed, so it also runs in check
mode). -/
def reqStatus : Request := { path := "/", command := "core-status" }

/-- C9: for a command that runs and exits 0, standard output is decoded
as JSON unless it is empty, in which case the decoded payload is the
empty sequence; observed through the stored payload: under the variable
name for `variable-get`, under the generic `drush` key (for nonempty
output) for every other executed command — allow-listed commands in
either mode, any command in non-check mode, including a real
`variable-set`. -/
theorem stdout_decoded_as_json (env : Env) (check_mode : Bool) (req : Request)
    (out err : String) (v : Json)
    (hrun : env.run (buildCmd env.drushPath req.command req.name req.value) =
      RunResult.mk 0 out err) :
    (req.command = "variable-get" → req.name ≠ "" → out = "" →
      getk (resultOf (run_module env check_mode req).2) req.name =
        some (RVal.j (Json.arr []))) ∧
    (req.command = "variable-get" → req.name ≠ "" → out ≠ "" →
      env.parse out = some v →
      getk (resultOf (run_module env check_mode req).2) req.name =
        some (RVal.j v)) ∧
    (req.command ≠ "variable-get" →
      (req.command = "variable-set" →
        check_mode = false ∧ req.name ≠ "" ∧ req.value ≠ "") →
      (check_mode = true → req.command ∈ safeCommands) →
      out ≠ "" → env.parse out = some v →
      getk (resultOf (run_module env check_mode req).2) "drush" =
        some (RVal.j v)) := by
  have hsafe : ("variable-get" : String) ∈ safeCommands := by decide
  have hunsafeSet : ("variable-set" : String) ∉ safeCommands := by decide
  refine ⟨?_, ?_, ?_⟩
  · intro hc hn ho
    rw [hc] at hrun
    simp [run_module, finishRun, changeAndExit, hc, hn, hrun, hsafe, ho,
      resultOf, getk_setk]
  · intro hc hn ho hpp
    rw [hc] at hrun
    simp [run_module, finishRun, changeAndExit, hc, hn, hrun, hsafe, ho, hpp,
      resultOf, getk_setk]
  · intro hc1 hset hcmem ho hpp
    by_cases hc2 : req.command = "variable-set"
    · obtain ⟨hcmf, hn, hv⟩ := hset hc2
      subst hcmf
      rw [hc2] at hrun
      simp [run_module, finishRun, changeAndExit, hc2, hn, hv, hrun, ho, hpp,
        hunsafeSet, resultOf, getk_setk, getk_setk_ne]
    · cases check_mode with
      | false =>
        by_cases hmem : req.command ∈ safeCommands
        · simp [run_module, finishRun, changeAndExit, hc1, hc2, hrun, ho, hpp,
            hmem, resultOf, getk_setk, getk_setk_ne]
        · simp [run_module, finishRun, changeAndExit, hc1, hc2, hrun, ho, hpp,
            hmem, resultOf, getk_setk, getk_setk_ne]
      | true =>
        have hmem := hcmem rfl
        simp [run_module, finishRun, changeAndExit, hc1, hc2, hrun, ho, hpp,
          hmem, resultOf, getk_setk, getk_setk_ne]

theorem stdout_decoded_as_json_witness :
    (reqStatus.command = "variable-get" → reqStatus.name ≠ "" → "true" = "" →
      getk (resultOf (run_module envTruthy true reqStatus).2) reqStatus.name =
        some (RVal.j (Json.arr []))) ∧
    (reqStatus.command = "variable-get" → reqStatus.name ≠ "" → "true" ≠ "" →
      envTruthy.parse "true" = some (Json.bool true) →
      getk (resultOf (run_module envTruthy true reqStatus).2) reqStatus.name =
        some (RVal.j (Json.bool true))) ∧
    (reqStatus.command ≠ "variable-get" →
      (reqStatus.command = "variable-set" →
        true = false ∧ reqStatus.name ≠ "" ∧ reqStatus.value ≠ "") →
      (true = true → reqStatus.command ∈ safeCommands) →
      "true" ≠ "" → envTruthy.parse "true" = some (Json.bool true) →
      getk (resultOf (run_module envTruthy true reqStatus).2) "drush" =
        some (RVal.j (Json.bool true))) :=
  stdout_decoded_as_json envTruthy true reqStatus "true" "" (Json.bool true) rfl

end Drush
